import Mathlib

set_option maxRecDepth 100000

/-!
Shallow embedding of `src/third_party/BCVTB/openbuildnet.cpp` (the openBuildNet
bridge of EnergyPlus): the two signal mailboxes, the handshake driven by
`exchangedoublewithOBN` on the engine side and the node-thread callbacks on the
other side, node startup configuration parsing, and thread shutdown.

Modelling conventions:
- The two mailboxes are plain values of the signal enumerations; blocking waits
  are embedded by passing the value observed at each wait point (or, for
  `waitforOBNSignal`, an `Option` of the first signal that arrives, `none`
  meaning no signal ever arrives) as an explicit environment parameter.
- Buffers of C `double` values are `List α` for an arbitrary element type `α`:
  the source only resizes and copies them, never inspects a value.
- `std::size_t` counts are `Nat`; the `int` status codes are `Int`.  The counts
  that occur in this protocol are bounded by NDBLMAX = 1024, far below any
  integer-conversion boundary.
- Straight-line engine code additionally records the sequence of side effects
  it performs (an `EPEvent` trace) so that ordering claims can be stated.
-/

namespace OBNEPlus

/-- NDBLMAX from the source: maximum number of doubles that can be read. -/
def NDBLMAX : Nat := 1024

/-- The signal from OBN (node thread) to EnergyPlus, enum `OBNSignalToEPlus`. -/
inductive OBNSignalToEPlus where
  | EPSIG_NONE
  | EPSIG_START
  | EPSIG_Y
  | EPSIG_X
  | EPSIG_TERM
  | EPSIG_QUIT
  | EPSIG_TIMEOUT
deriving DecidableEq, Repr

/-- The signal from EnergyPlus to OBN (node thread), enum `EPlusSignalToOBN`. -/
inductive EPlusSignalToOBN where
  | OBNSIG_NONE
  | OBNSIG_DONE
  | OBNSIG_TERM
  | OBNSIG_EXIT
deriving DecidableEq, Repr

open OBNSignalToEPlus EPlusSignalToOBN

/-- `waitforOBNSignal(int timeout)` from the source.

`stored` is the current value of the node-to-engine mailbox
(`obn_signal_to_eplus`); `default_obn_timeout` is the process-wide default.
`arrival` abstracts the environment: the first non-NONE signal posted during
the wait, if one arrives before the (effective) timeout expires; `none` means
no signal arrives in time.

The result is `none` exactly when the wait blocks forever (indefinite wait and
no signal ever arrives).  Faithful to the source: a stored non-NONE value is
returned immediately; otherwise `timeout <= 0` is replaced by
`default_obn_timeout`; if the resulting value is still `<= 0` the wait is
indefinite, else the wait is timed and returns `EPSIG_TIMEOUT` on expiry. -/
def waitforOBNSignal (timeout : Int) (default_obn_timeout : Int)
    (stored : OBNSignalToEPlus) (arrival : Option OBNSignalToEPlus) :
    Option OBNSignalToEPlus :=
  if stored ≠ EPSIG_NONE then
    some stored
  else
    let t := if timeout ≤ 0 then default_obn_timeout else timeout
    if t ≤ 0 then
      arrival
    else
      match arrival with
      | some s => some s
      | none => some EPSIG_TIMEOUT

/-- The node's port data visible to the engine side: the input port buffer,
the output port buffer, and the node's current simulation time (in seconds,
as returned by `currentSimulationTime<std::chrono::seconds>()`). -/
structure NodeData (α : Type) where
  inputPort : List α
  outputPort : List α
  simTime : Int
deriving DecidableEq, Repr

/-- `MQTTNodeEPlus::setOutputValues(std::size_t nDbl, double dblVals[])` from
the source: resize the output port to `nDbl`, copy the first `nDbl` values of
`dblVals` into it, and return `nDbl` (as the C `int` return value; all counts
in this protocol are far below the integer-conversion boundary).
Result: (return value, new output port contents). -/
def setOutputValues (α : Type) (nDbl : Nat) (dblVals : List α) : Int × List α :=
  ((nDbl : Int), dblVals.take nDbl)

/-- `MQTTNodeEPlus::getInputValues(int *nDblRea, double dblValRea[])` from the
source: sets `*nDblRea = 0`, reads the input port size `sz`; if `sz > NDBLMAX`
returns `-1` (leaving `*nDblRea = 0` and the caller's array untouched),
otherwise sets `*nDblRea = sz`, copies the `sz` port values into the front of
the caller's preallocated array, and returns `0`.
Result: (return value, `*nDblRea`, contents of the caller's array). -/
def getInputValues (α : Type) (inputPort : List α) (dblValRea0 : List α) :
    Int × Int × List α :=
  let sz := inputPort.length
  if sz > NDBLMAX then
    (-1, 0, dblValRea0)
  else
    (0, (sz : Int), inputPort.take sz ++ dblValRea0.drop sz)

/-- `processOBNSignal(sig, flaRea)` from the source: translates an unexpected
signal at a wait point into (return value, new `*flaRea`). -/
def processOBNSignal (sig : OBNSignalToEPlus) (flaRea : Int) : Int × Int :=
  match sig with
  | EPSIG_TERM => (0, 1)
  | EPSIG_QUIT => (0, -1)
  | EPSIG_TIMEOUT => (-21, flaRea)
  | _ => (-22, flaRea)

/-- The side effects `exchangedoublewithOBN` performs, in program order. -/
inductive EPEvent (α : Type) where
  | waitOBN (observed : OBNSignalToEPlus)
  | resetOBN
  | setOutputValues (nDbl : Nat) (vals : List α)
  | signalOBN (sig : EPlusSignalToOBN)
  | getInputValues (ret : Int)
deriving DecidableEq, Repr

/-- Everything `exchangedoublewithOBN` leaves behind: the return value, the
five engine-side out-buffers, the node data, the two mailboxes, and the trace
of side effects it performed. -/
structure ExchangeOut (α : Type) where
  retVal : Int
  flaRea : Int
  nDblRea : Int
  dblValRea : List α
  simTimRea : Int
  node : Option (NodeData α)
  obnSig : OBNSignalToEPlus
  eplusSig : EPlusSignalToOBN
  trace : List (EPEvent α)
deriving DecidableEq, Repr

/-- `exchangedoublewithOBN` from the source.

Parameters: `node?` is `obn_thread` (the node's data when a node exists);
`obnSig0`/`eplusSig0` are the mailbox values on entry; `sig1` and `sig2` are
the signals observed at the first and second `waitforOBNSignal()` call (the
environment abstraction of the blocking waits; after each wait the code calls
`resetOBNSignal()`, so the mailbox is NONE afterwards); `nDblWri`/`dblValWri`
are the engine's outputs; `nDblRea0`/`dblValRea0`/`simTimRea0` are the prior
contents of the engine's preallocated result buffers.

Control flow, faithful to the source: set `*flaRea = 0`; return `-1` if no
node; wait, reset, and if the signal is not UPDATE_Y return
`processOBNSignal`; stage the outputs and ACK with DONE; if the staging result
is non-negative, wait, reset, and if the signal is not UPDATE_X return
`processOBNSignal`; read the inputs, record the simulation time, and ACK with
DONE unconditionally; return the result of the input read. -/
def exchangedoublewithOBN (α : Type)
    (node? : Option (NodeData α))
    (obnSig0 : OBNSignalToEPlus) (eplusSig0 : EPlusSignalToOBN)
    (sig1 sig2 : OBNSignalToEPlus)
    (nDblWri : Nat) (dblValWri : List α)
    (nDblRea0 : Int) (dblValRea0 : List α) (simTimRea0 : Int) :
    ExchangeOut α :=
  match node? with
  | none =>
      ⟨-1, 0, nDblRea0, dblValRea0, simTimRea0, none, obnSig0, eplusSig0, []⟩
  | some nd =>
      if sig1 ≠ EPSIG_Y then
        let p := processOBNSignal sig1 0
        ⟨p.1, p.2, nDblRea0, dblValRea0, simTimRea0, some nd, EPSIG_NONE,
          eplusSig0, [.waitOBN sig1, .resetOBN]⟩
      else
        let o := setOutputValues α nDblWri dblValWri
        let nd1 : NodeData α := { nd with outputPort := o.2 }
        if o.1 ≥ 0 then
          if sig2 ≠ EPSIG_X then
            let p := processOBNSignal sig2 0
            ⟨p.1, p.2, nDblRea0, dblValRea0, simTimRea0, some nd1, EPSIG_NONE,
              OBNSIG_DONE,
              [.waitOBN sig1, .resetOBN, .setOutputValues nDblWri dblValWri,
               .signalOBN OBNSIG_DONE, .waitOBN sig2, .resetOBN]⟩
          else
            let g := getInputValues α nd1.inputPort dblValRea0
            ⟨g.1, 0, g.2.1, g.2.2, nd1.simTime, some nd1, EPSIG_NONE,
              OBNSIG_DONE,
              [.waitOBN sig1, .resetOBN, .setOutputValues nDblWri dblValWri,
               .signalOBN OBNSIG_DONE, .waitOBN sig2, .resetOBN,
               .getInputValues g.1, .signalOBN OBNSIG_DONE]⟩
        else
          ⟨o.1, 0, nDblRea0, dblValRea0, simTimRea0, some nd1, EPSIG_NONE,
            OBNSIG_DONE,
            [.waitOBN sig1, .resetOBN, .setOutputValues nDblWri dblValWri,
             .signalOBN OBNSIG_DONE]⟩

/-- Number of times the trace performs the output-publishing operation:
a `setOutputValues` immediately followed by posting DONE. -/
def countPublish {α : Type} : List (EPEvent α) → Nat
  | EPEvent.setOutputValues _ _ :: EPEvent.signalOBN OBNSIG_DONE :: rest =>
      countPublish rest + 1
  | _ :: rest => countPublish rest
  | [] => 0

/-! ## Node-thread side: the callbacks of `MQTTNodeEPlus` -/

/-- Node lifecycle state of the external node framework; the source only ever
assigns `NODE_ERROR` (`_node_state = NODE_ERROR`). -/
inductive NodeLifecycleState where
  | NODE_RUNNING
  | NODE_STOPPED
  | NODE_ERROR
deriving DecidableEq, Repr

/-- The shared synchronization state the node-thread callbacks touch: the
engine-to-node mailbox (`eplus_signal_to_obn`), the node-to-engine mailbox
(`obn_signal_to_eplus`), and the node lifecycle state (`_node_state`). -/
structure SyncState where
  eplusToObn : EPlusSignalToOBN
  obnToEplus : OBNSignalToEPlus
  nodeState : NodeLifecycleState
deriving DecidableEq, Repr

/-- `signalEPlus(sig)` from the source: store `sig` in the node-to-engine
mailbox (then notify; notification has no state content). -/
def signalEPlus (sig : OBNSignalToEPlus) (st : SyncState) : SyncState :=
  { st with obnToEplus := sig }

/-- `resetEPlusSignal()` from the source: set the engine-to-node mailbox back
to NONE. -/
def resetEPlusSignal (st : SyncState) : SyncState :=
  { st with eplusToObn := OBNSIG_NONE }

/-- `waitforEPlusSignal()` from the source: if the engine-to-node mailbox is
already non-NONE, return it at once; otherwise block (with no timeout) until a
non-NONE value is stored and return it.  `arrival` abstracts the value the
engine posts during the wait; the condition wait stores it in the mailbox.
Result: (observed signal, state after the wait). -/
def waitforEPlusSignal (st : SyncState) (arrival : EPlusSignalToOBN) :
    EPlusSignalToOBN × SyncState :=
  if st.eplusToObn ≠ OBNSIG_NONE then
    (st.eplusToObn, st)
  else
    (arrival, { st with eplusToObn := arrival })

/-- The value `waitforEPlusSignal` observes from state `st` when the engine
posts `arrival` during the wait. -/
def observedEPlusSignal (st : SyncState) (arrival : EPlusSignalToOBN) :
    EPlusSignalToOBN :=
  if st.eplusToObn ≠ OBNSIG_NONE then st.eplusToObn else arrival

/-- The side effects a node-thread callback performs, in program order. -/
inductive NodeEvent where
  | setNodeState (s : NodeLifecycleState)
  | signalEPlus (sig : OBNSignalToEPlus)
  | waitforEPlusSignal
  | resetEPlusSignal
deriving DecidableEq, Repr

/-- `MQTTNodeEPlus::askEnergyPlusToQuit()` from the source: reset the
engine-to-node mailbox, post QUIT on the node-to-engine mailbox, and wait
(the wait has no timeout) for the engine's acknowledgment. -/
def askEnergyPlusToQuit (st : SyncState) (arrival : EPlusSignalToOBN) :
    SyncState × List NodeEvent :=
  let st1 := resetEPlusSignal st
  let st2 := signalEPlus EPSIG_QUIT st1
  let p := waitforEPlusSignal st2 arrival
  (p.2, [.resetEPlusSignal, .signalEPlus EPSIG_QUIT, .waitforEPlusSignal])

/-- `MQTTNodeEPlus::onRawMessageError` from the source: set the node state to
ERROR, then perform the quit escalation. -/
def onRawMessageError (st : SyncState) (arrival : EPlusSignalToOBN) :
    SyncState × List NodeEvent :=
  let st1 := { st with nodeState := NodeLifecycleState.NODE_ERROR }
  let p := askEnergyPlusToQuit st1 arrival
  (p.1, .setNodeState NodeLifecycleState.NODE_ERROR :: p.2)

/-- `MQTTNodeEPlus::onReadValueError` from the source: identical body to
`onRawMessageError`. -/
def onReadValueError (st : SyncState) (arrival : EPlusSignalToOBN) :
    SyncState × List NodeEvent :=
  let st1 := { st with nodeState := NodeLifecycleState.NODE_ERROR }
  let p := askEnergyPlusToQuit st1 arrival
  (p.1, .setNodeState NodeLifecycleState.NODE_ERROR :: p.2)

/-- `MQTTNodeEPlus::onSendMessageError` from the source: identical body to
`onRawMessageError`. -/
def onSendMessageError (st : SyncState) (arrival : EPlusSignalToOBN) :
    SyncState × List NodeEvent :=
  let st1 := { st with nodeState := NodeLifecycleState.NODE_ERROR }
  let p := askEnergyPlusToQuit st1 arrival
  (p.1, .setNodeState NodeLifecycleState.NODE_ERROR :: p.2)

/-- `MQTTNodeEPlus::onOBNError` from the source: identical body to
`onRawMessageError`. -/
def onOBNError (st : SyncState) (arrival : EPlusSignalToOBN) :
    SyncState × List NodeEvent :=
  let st1 := { st with nodeState := NodeLifecycleState.NODE_ERROR }
  let p := askEnergyPlusToQuit st1 arrival
  (p.1, .setNodeState NodeLifecycleState.NODE_ERROR :: p.2)

/-- `MQTTNodeEPlus::onUpdateY(m)` from the source: post UPDATE_Y, wait for the
engine's signal, and reset the engine-to-node mailbox only if the observed
signal was DONE. -/
def onUpdateY (st : SyncState) (arrival : EPlusSignalToOBN) :
    SyncState × List NodeEvent :=
  let st1 := signalEPlus EPSIG_Y st
  let p := waitforEPlusSignal st1 arrival
  if p.1 = OBNSIG_DONE then
    (resetEPlusSignal p.2,
      [.signalEPlus EPSIG_Y, .waitforEPlusSignal, .resetEPlusSignal])
  else
    (p.2, [.signalEPlus EPSIG_Y, .waitforEPlusSignal])

/-- `MQTTNodeEPlus::onUpdateX(m)` from the source: post UPDATE_X, wait for the
engine's signal, and reset the engine-to-node mailbox only if the observed
signal was DONE. -/
def onUpdateX (st : SyncState) (arrival : EPlusSignalToOBN) :
    SyncState × List NodeEvent :=
  let st1 := signalEPlus EPSIG_X st
  let p := waitforEPlusSignal st1 arrival
  if p.1 = OBNSIG_DONE then
    (resetEPlusSignal p.2,
      [.signalEPlus EPSIG_X, .waitforEPlusSignal, .resetEPlusSignal])
  else
    (p.2, [.signalEPlus EPSIG_X, .waitforEPlusSignal])

/-- `MQTTNodeEPlus::onInitialization()` from the source: post START, wait for
the engine's signal, and reset the engine-to-node mailbox only if the observed
signal was DONE. -/
def onInitializationCb (st : SyncState) (arrival : EPlusSignalToOBN) :
    SyncState × List NodeEvent :=
  let st1 := signalEPlus EPSIG_START st
  let p := waitforEPlusSignal st1 arrival
  if p.1 = OBNSIG_DONE then
    (resetEPlusSignal p.2,
      [.signalEPlus EPSIG_START, .waitforEPlusSignal, .resetEPlusSignal])
  else
    (p.2, [.signalEPlus EPSIG_START, .waitforEPlusSignal])

/-! ## Thread shutdown: `stopThread` and `stopOBNNode` -/

/-- The side effects of stopping the node thread. -/
inductive StopEvent where
  | signalOBN_EXIT
  | joinThread
deriving DecidableEq, Repr

/-- What a call to `stopOBNNode()` does. -/
inductive StopOutcome where
  /-- The null `obn_thread` pointer is dereferenced (undefined behavior). -/
  | nullDereference
  /-- The call performs exactly these effects. -/
  | effects (evs : List StopEvent)
deriving DecidableEq, Repr

/-- `EPlusOBNThread::stopThread()` from the source: if the thread is joinable,
post EXIT on the engine-to-node mailbox and join it; otherwise do nothing. -/
def stopThread (joinable : Bool) : List StopEvent :=
  if joinable then [.signalOBN_EXIT, .joinThread] else []

/-- `stopOBNNode()` from the source, verbatim control flow:

`if (!obn_thread) { obn_thread->stopThread(); }`

The condition is true exactly when the process-wide `obn_thread` pointer is
null, and in that branch `stopThread` is invoked through the null pointer
(a null dereference).  When a node thread exists (`obn_thread` non-null,
carrying whether its thread is joinable) the condition is false and the call
performs no effect at all. -/
def stopOBNNode (obn_thread : Option Bool) : StopOutcome :=
  match obn_thread with
  | none => .nullDereference
  | some _ => .effects []

/-! ## Node startup: `initOBNNode` configuration parsing

Strings are `List Char`.  `OBNsim::Utils::trim`, `toLower`,
`isValidNodeName` and the C library's `atoi` are external collaborators
(they live in the obnnode library / libc, not in this repository); they are
modelled below by their documented standard behavior. -/

/-- The `spacechars` constant from `initOBNNode`: space and tab. -/
def spacechars : List Char := [' ', '\t']

/-- Whitespace as recognized by the external trim utility (models
`OBNsim::Utils::trim`'s character class: standard whitespace). -/
def isSpaceChar (c : Char) : Bool :=
  c == ' ' || c == '\t' || c == '\n' || c == '\r'

/-- Models the external `OBNsim::Utils::trim`: strip leading and trailing
whitespace. -/
def obnTrim (s : List Char) : List Char :=
  ((s.dropWhile isSpaceChar).reverse.dropWhile isSpaceChar).reverse

/-- ASCII lower-casing of one character (models `tolower`). -/
def toLowerC (c : Char) : Char :=
  if 'A' ≤ c ∧ c ≤ 'Z' then Char.ofNat (c.toNat + 32) else c

/-- Models the external `OBNsim::Utils::toLower`: ASCII lower-case the
string. -/
def obnToLower (s : List Char) : List Char := s.map toLowerC

/-- Models the C library `atoi`: skip leading whitespace, an optional sign,
then the value of the leading run of digits (0 if none). -/
def atoiModel (s : List Char) : Int :=
  let s1 := s.dropWhile isSpaceChar
  let digits (t : List Char) : Int :=
    Int.ofNat ((t.takeWhile Char.isDigit).foldl
      (fun a c => a * 10 + (c.toNat - 48)) 0)
  match s1 with
  | '-' :: rest => - digits rest
  | '+' :: rest => digits rest
  | _ => digits s1

/-- `std::string::find_first_of(spacechars)`: index of the first character of
`s` that is a space or tab. -/
def findFirstOfSpace (s : List Char) : Option Nat :=
  s.findIdx? (fun c => spacechars.contains c)

/-- `std::string::find_first_not_of(spacechars, pos)`: index (absolute) of the
first character at position `≥ start` that is not a space or tab. -/
def findFirstNotOfSpaceFrom (s : List Char) (start : Nat) : Option Nat :=
  ((s.drop start).findIdx? (fun c => !spacechars.contains c)).map
    (fun i => i + start)

/-- The first-word split used twice in `initOBNNode` (for the communication
line and for the node line): the word before the first space/tab, and the
substring starting at the first non-blank character after it (empty when
absent). -/
def splitFirstWord (line : List Char) : List Char × List Char :=
  match findFirstOfSpace line with
  | none => (line, [])
  | some pos =>
      match findFirstNotOfSpaceFrom line pos with
      | none => (line.take pos, [])
      | some p2 => (line.take pos, line.drop p2)

/-- Modelled from the spec: `OBNsim::Utils::isValidNodeName` is provided by
the external node library (not in this repository's sources); the spec
describes it as "a validity predicate — e.g., non-empty, transport-safe
character set".  Modelled as: non-empty, and every character is an ASCII
letter, digit, or underscore. -/
def isValidNodeName (s : List Char) : Bool :=
  !s.isEmpty && s.all (fun c => c.isAlphanum || c == '_')

/-- The process-wide options `initOBNNode` can set: `quitIfOBNTerminates`
(file default `false`) and `default_obn_timeout` (file default `-1`). -/
structure OBNOptions where
  quitIfOBNTerminates : Bool
  default_obn_timeout : Int
deriving DecidableEq, Repr

/-- One iteration of the option-line loop of `initOBNNode`: split off the
option word (and, when the line extends at least two characters past the
split point, the trimmed remainder), lower-case and trim the option word, and
apply `quitifobnstops` / `timeout <seconds>`; unknown options are ignored. -/
def processOptionLine (opts : OBNOptions) (oneline : List Char) : OBNOptions :=
  let pos? := findFirstOfSpace oneline
  let theOption :=
    match pos? with
    | none => oneline
    | some pos => oneline.take pos
  let theRest :=
    match pos? with
    | none => ([] : List Char)
    | some pos =>
        if oneline.length ≥ pos + 2 then obnTrim (oneline.drop (pos + 1))
        else []
  let theOption2 := obnToLower (obnTrim theOption)
  if theOption2 = ("quitifobnstops").toList then
    { opts with quitIfOBNTerminates := true }
  else if theOption2 = ("timeout").toList then
    if theRest ≠ [] then
      { opts with default_obn_timeout := atoiModel theRest }
    else opts
  else opts

/-- The node `initOBNNode` creates: name, workspace, and the optional MQTT
server address taken from the remainder of the communication line. -/
structure CreatedNode where
  name : List Char
  workspace : List Char
  serverAddress : Option (List Char)
deriving DecidableEq, Repr

/-- The outcome of `initOBNNode`: its boolean return value, the node that
exists afterwards, and the process-wide options afterwards. -/
structure InitResult where
  retVal : Bool
  node : Option CreatedNode
  opts : OBNOptions
deriving DecidableEq, Repr

/-- `initOBNNode(docname)` from the source, given the opened configuration
file as its list of lines (`docname` being non-null and the file opening
successfully are preconditions of reaching the parse; a missing first or
second line makes the corresponding `getline` fail, i.e. `success = false`).

`prev` is the process-wide `obn_thread` pointer on entry: when a node already
exists the function returns `true` immediately.  `startOK` models the result
of the external `startThread()` (network port open, port registration, thread
start), which determines the return value on the successful-parse path.

Faithful to the source: line 1 splits into the transport word and the
optional transport configuration; line 2 splits into the node name and the
optional workspace; every further line is processed by the option loop (its
effects, e.g. `setOBNTimeout`, happen before the transport check); then the
transport word is trimmed and lower-cased and must equal "mqtt", the trimmed
node name must be valid, and the node is created with the trimmed transport
configuration as server address when non-empty. -/
def initOBNNode (prev : Option CreatedNode) (opts0 : OBNOptions)
    (lines : List (List Char)) (startOK : Bool) : InitResult :=
  match prev with
  | some _ => ⟨true, prev, opts0⟩
  | none =>
      match lines with
      | [] => ⟨false, none, opts0⟩
      | [_] => ⟨false, none, opts0⟩
      | l1 :: l2 :: rest =>
          let c := splitFirstWord l1
          let n := splitFirstWord l2
          let opts := rest.foldl processOptionLine opts0
          let comm := obnToLower (obnTrim c.1)
          let node_name := obnTrim n.1
          if comm = ("mqtt").toList then
            if !isValidNodeName node_name then
              ⟨false, none, opts⟩
            else
              let comm_config := obnTrim c.2
              ⟨startOK,
                some ⟨node_name, n.2,
                  if comm_config ≠ [] then some comm_config else none⟩,
                opts⟩
          else
            ⟨false, none, opts⟩

/-! ## Theorems -/

theorem countPublish_nil {α : Type} : countPublish ([] : List (EPEvent α)) = 0 :=
  rfl

theorem countPublish_wait {α : Type} (s : OBNSignalToEPlus)
    (rest : List (EPEvent α)) :
    countPublish (EPEvent.waitOBN s :: rest) = countPublish rest :=
  rfl

theorem countPublish_reset {α : Type} (rest : List (EPEvent α)) :
    countPublish (EPEvent.resetOBN :: rest) = countPublish rest :=
  rfl

theorem countPublish_get {α : Type} (r : Int) (rest : List (EPEvent α)) :
    countPublish (EPEvent.getInputValues r :: rest) = countPublish rest :=
  rfl

theorem countPublish_signal {α : Type} (s : EPlusSignalToOBN)
    (rest : List (EPEvent α)) :
    countPublish (EPEvent.signalOBN s :: rest) = countPublish rest :=
  rfl

theorem countPublish_pub {α : Type} (n : Nat) (v : List α)
    (rest : List (EPEvent α)) :
    countPublish (EPEvent.setOutputValues n v ::
      EPEvent.signalOBN OBNSIG_DONE :: rest) = countPublish rest + 1 :=
  rfl

/-- C7: if the signal observed at the Exchange Gateway's first wait point is
TERMINATE, `exchangedoublewithOBN` returns status 0, sets `*flaRea = 1`,
leaves `*nDblRea`, `dblValRea` and `*simTimRea` untouched, and the
node-to-engine mailbox has been reset to NONE. -/
theorem exchange_terminate_at_first_wait (α : Type) (nd : NodeData α)
    (obnSig0 : OBNSignalToEPlus) (eplusSig0 : EPlusSignalToOBN)
    (sig2 : OBNSignalToEPlus) (nDblWri : Nat) (dblValWri : List α)
    (nDblRea0 : Int) (dblValRea0 : List α) (simTimRea0 : Int) :
    exchangedoublewithOBN α (some nd) obnSig0 eplusSig0 EPSIG_TERM sig2
        nDblWri dblValWri nDblRea0 dblValRea0 simTimRea0 =
      ⟨0, 1, nDblRea0, dblValRea0, simTimRea0, some nd, EPSIG_NONE, eplusSig0,
        [.waitOBN EPSIG_TERM, .resetOBN]⟩ :=
  rfl

/-- C2: one Exchange Gateway call performs the output-publishing operation
(`setOutputValues` immediately followed by posting DONE) exactly once if the
signal observed at the first wait point is UPDATE_Y, and zero times
otherwise; hence, with a node present, PublishOutputs happen exactly as often
as UPDATE_Y is observed — never skipped, never duplicated. -/
theorem exchange_publish_count (α : Type) (nd : NodeData α)
    (obnSig0 : OBNSignalToEPlus) (eplusSig0 : EPlusSignalToOBN)
    (sig1 sig2 : OBNSignalToEPlus) (nDblWri : Nat) (dblValWri : List α)
    (nDblRea0 : Int) (dblValRea0 : List α) (simTimRea0 : Int) :
    countPublish (exchangedoublewithOBN α (some nd) obnSig0 eplusSig0 sig1
        sig2 nDblWri dblValWri nDblRea0 dblValRea0 simTimRea0).trace =
      if sig1 = EPSIG_Y then 1 else 0 := by
  by_cases h : sig1 = EPSIG_Y
  · subst h
    by_cases h2 : sig2 = EPSIG_X
    · subst h2
      simp [exchangedoublewithOBN, setOutputValues, countPublish_wait,
        countPublish_reset, countPublish_pub, countPublish_get,
        countPublish_signal, countPublish_nil]
    · simp [exchangedoublewithOBN, setOutputValues, h2, countPublish_wait,
        countPublish_reset, countPublish_pub, countPublish_nil]
  · simp [exchangedoublewithOBN, h, countPublish_wait, countPublish_reset,
      countPublish_nil]

/-- C10: `setOutputValues` returns the output count, which is never negative;
consequently the gateway branch that would skip the input phase on a negative
staging result is unreachable, and whenever UPDATE_Y is observed at the first
wait point the gateway posts DONE and proceeds to the second wait
(for UPDATE_X). -/
theorem setOutputValues_nonneg_and_input_phase_reached (α : Type) :
    (∀ (n : Nat) (vals : List α), 0 ≤ (setOutputValues α n vals).1) ∧
    ∀ (nd : NodeData α) (obnSig0 : OBNSignalToEPlus)
      (eplusSig0 : EPlusSignalToOBN) (sig2 : OBNSignalToEPlus)
      (nDblWri : Nat) (dblValWri : List α) (nDblRea0 : Int)
      (dblValRea0 : List α) (simTimRea0 : Int),
      ∃ tail,
        (exchangedoublewithOBN α (some nd) obnSig0 eplusSig0 EPSIG_Y sig2
            nDblWri dblValWri nDblRea0 dblValRea0 simTimRea0).trace =
          [.waitOBN EPSIG_Y, .resetOBN,
           .setOutputValues nDblWri dblValWri, .signalOBN OBNSIG_DONE,
           .waitOBN sig2, .resetOBN] ++ tail := by
  constructor
  · intro n vals
    simp [setOutputValues]
  · intro nd obnSig0 eplusSig0 sig2 nDblWri dblValWri nDblRea0 dblValRea0
      simTimRea0
    by_cases h2 : sig2 = EPSIG_X
    · subst h2
      exact ⟨[.getInputValues
          (getInputValues α nd.inputPort dblValRea0).1,
          .signalOBN OBNSIG_DONE],
        by simp [exchangedoublewithOBN, setOutputValues]⟩
    · exact ⟨[], by simp [exchangedoublewithOBN, setOutputValues, h2]⟩

/-- C1 counterexample: with 1025 values on the input port (one above
NDBLMAX = 1024) and the normal UPDATE_Y / UPDATE_X signals, the gateway does
return the capacity-error status -1, but — contrary to the claim — it still
posts the DONE acknowledgment on the engine-to-node mailbox after the failed
read (the final `signalOBN OBNSIG_DONE` of the trace, and the engine-to-node
mailbox ends at DONE). -/
theorem exchange_capacity_overflow_posts_done :
    (exchangedoublewithOBN Int
        (some ⟨List.replicate 1025 0, [], 7⟩) EPSIG_NONE OBNSIG_NONE
        EPSIG_Y EPSIG_X 2 [10, 20] 0 [] 0).retVal = -1 ∧
    (exchangedoublewithOBN Int
        (some ⟨List.replicate 1025 0, [], 7⟩) EPSIG_NONE OBNSIG_NONE
        EPSIG_Y EPSIG_X 2 [10, 20] 0 [] 0).eplusSig = OBNSIG_DONE ∧
    (exchangedoublewithOBN Int
        (some ⟨List.replicate 1025 0, [], 7⟩) EPSIG_NONE OBNSIG_NONE
        EPSIG_Y EPSIG_X 2 [10, 20] 0 [] 0).trace =
      [.waitOBN EPSIG_Y, .resetOBN, .setOutputValues 2 [10, 20],
       .signalOBN OBNSIG_DONE, .waitOBN EPSIG_X, .resetOBN,
       .getInputValues (-1), .signalOBN OBNSIG_DONE] := by
  refine ⟨?_, ?_, ?_⟩ <;> rfl

/-- C1 (amended): when the input count exceeds NDBLMAX the gateway returns
the capacity-error status -1 (propagated from `getInputValues`) but still
posts the DONE acknowledgment after the failed read; an input count exactly
equal to NDBLMAX succeeds with status 0 and all values copied. -/
theorem exchange_capacity_boundary (α : Type) (nd : NodeData α)
    (obnSig0 : OBNSignalToEPlus) (eplusSig0 : EPlusSignalToOBN)
    (nDblWri : Nat) (dblValWri : List α) (nDblRea0 : Int)
    (dblValRea0 : List α) (simTimRea0 : Int) :
    (NDBLMAX < nd.inputPort.length →
      (exchangedoublewithOBN α (some nd) obnSig0 eplusSig0 EPSIG_Y EPSIG_X
          nDblWri dblValWri nDblRea0 dblValRea0 simTimRea0).retVal = -1 ∧
      (exchangedoublewithOBN α (some nd) obnSig0 eplusSig0 EPSIG_Y EPSIG_X
          nDblWri dblValWri nDblRea0 dblValRea0 simTimRea0).trace =
        [.waitOBN EPSIG_Y, .resetOBN, .setOutputValues nDblWri dblValWri,
         .signalOBN OBNSIG_DONE, .waitOBN EPSIG_X, .resetOBN,
         .getInputValues (-1), .signalOBN OBNSIG_DONE]) ∧
    (nd.inputPort.length = NDBLMAX →
      (exchangedoublewithOBN α (some nd) obnSig0 eplusSig0 EPSIG_Y EPSIG_X
          nDblWri dblValWri nDblRea0 dblValRea0 simTimRea0).retVal = 0 ∧
      (exchangedoublewithOBN α (some nd) obnSig0 eplusSig0 EPSIG_Y EPSIG_X
          nDblWri dblValWri nDblRea0 dblValRea0 simTimRea0).nDblRea =
        (NDBLMAX : Int) ∧
      (exchangedoublewithOBN α (some nd) obnSig0 eplusSig0 EPSIG_Y EPSIG_X
          nDblWri dblValWri nDblRea0 dblValRea0 simTimRea0).dblValRea =
        nd.inputPort ++ dblValRea0.drop NDBLMAX) := by
  constructor
  · intro h
    constructor <;>
      simp [exchangedoublewithOBN, setOutputValues, getInputValues, h]
  · intro h
    refine ⟨?_, ?_, ?_⟩ <;>
      simp [exchangedoublewithOBN, setOutputValues, getInputValues, h,
        List.take_length]

/-- C1 witness: the amended theorem applied at an input port of 1025 values
(for the overflow part) and at one of exactly 1024 values (for the boundary
part). -/
theorem exchange_capacity_boundary_witness :
    (NDBLMAX < 1025 ∧
      (exchangedoublewithOBN Int
          (some ⟨List.replicate 1025 0, [], 7⟩) EPSIG_NONE OBNSIG_NONE
          EPSIG_Y EPSIG_X 2 [10, 20] 0 [] 0).retVal = -1) ∧
    ((List.replicate 1024 (0 : Int)).length = NDBLMAX ∧
      (exchangedoublewithOBN Int
          (some ⟨List.replicate 1024 0, [], 7⟩) EPSIG_NONE OBNSIG_NONE
          EPSIG_Y EPSIG_X 2 [10, 20] 0 [] 0).retVal = 0) :=
  ⟨⟨by decide,
    ((exchange_capacity_boundary Int ⟨List.replicate 1025 0, [], 7⟩
      EPSIG_NONE OBNSIG_NONE 2 [10, 20] 0 [] 0).1
        (by simp [NDBLMAX])).1⟩,
   ⟨by simp [NDBLMAX],
    ((exchange_capacity_boundary Int ⟨List.replicate 1024 0, [], 7⟩
      EPSIG_NONE OBNSIG_NONE 2 [10, 20] 0 [] 0).2
        (by simp [NDBLMAX])).1⟩⟩

/-- C3 counterexample: with timeout argument 0 (≤ 0), an empty mailbox, and
the process-wide default timeout set to 5 (as configuration can set it), the
wait is not indefinite: it expires and returns the synthetic EPSIG_TIMEOUT,
refuting "if t <= 0 the wait is indefinite and the synthetic TIMEOUT value is
never returned". -/
theorem waitforOBNSignal_timeout_despite_nonpositive_arg :
    waitforOBNSignal 0 5 EPSIG_NONE none = some EPSIG_TIMEOUT := by
  decide

/-- C3 (amended): a non-NONE stored signal is returned immediately; when the
mailbox is empty, a timeout argument `t <= 0` is replaced by the process-wide
default timeout, and the wait is indefinite — returning exactly the arriving
signal, never synthesizing TIMEOUT — only when that effective timeout is also
`<= 0`; when the effective timeout is positive, a signal arriving before
expiry is returned and EPSIG_TIMEOUT is returned on expiry. -/
theorem waitforOBNSignal_spec (timeout d : Int) (stored : OBNSignalToEPlus)
    (arrival : Option OBNSignalToEPlus) :
    (stored ≠ EPSIG_NONE →
      waitforOBNSignal timeout d stored arrival = some stored) ∧
    (stored = EPSIG_NONE → (if timeout ≤ 0 then d else timeout) ≤ 0 →
      waitforOBNSignal timeout d stored arrival = arrival) ∧
    (stored = EPSIG_NONE → 0 < (if timeout ≤ 0 then d else timeout) →
      waitforOBNSignal timeout d stored arrival =
        some (arrival.getD EPSIG_TIMEOUT)) := by
  refine ⟨fun h => ?_, fun h ht => ?_, fun h ht => ?_⟩
  · simp [waitforOBNSignal, h]
  · subst h
    cases arrival <;> simp [waitforOBNSignal, ht]
  · subst h
    cases arrival <;> simp [waitforOBNSignal, not_le.mpr ht, ht.not_le]

/-- C3 witness: the amended theorem applied at timeout argument 3, default
-1, empty mailbox; the effective timeout is 3 > 0 and, with no arrival, the
wait returns EPSIG_TIMEOUT. -/
theorem waitforOBNSignal_spec_witness :
    (EPSIG_NONE = EPSIG_NONE ∧
      0 < (if (3 : Int) ≤ 0 then (-1 : Int) else 3)) ∧
    waitforOBNSignal 3 (-1) EPSIG_NONE none = some EPSIG_TIMEOUT :=
  ⟨⟨rfl, by decide⟩,
    (waitforOBNSignal_spec 3 (-1) EPSIG_NONE none).2.2 rfl (by decide)⟩

/-- C4: the code contradicts the claim (and the evident intent of
`stopThread`): with a node thread created and running, `stopOBNNode()`'s
inverted guard `if (!obn_thread)` is false, so the call performs no effect at
all — no EXIT is posted and the thread is not joined — even though
`stopThread` on a joinable thread is exactly "post EXIT, then join". -/
theorem stopOBNNode_running_does_nothing :
    stopOBNNode (some true) = StopOutcome.effects [] ∧
    stopThread true = [StopEvent.signalOBN_EXIT, StopEvent.joinThread] ∧
    StopOutcome.effects (stopThread true) ≠ StopOutcome.effects [] := by
  decide

/-- C9: the code contradicts the claim: when no node thread has ever been
created (`obn_thread` null), the inverted guard `if (!obn_thread)` is true
and `stopThread` is invoked through the null pointer — a null dereference,
not a safe no-op. -/
theorem stopOBNNode_null_dereferences :
    stopOBNNode none = StopOutcome.nullDereference ∧
    stopOBNNode none ≠ StopOutcome.effects [] := by
  decide

/-- C5: each framework error callback (onRawMessageError, onReadValueError,
onSendMessageError, onOBNError) first sets the node lifecycle state to ERROR
and then performs the quit escalation: reset the engine-to-node mailbox, post
QUIT on the node-to-engine mailbox, and wait — on the timeout-free
`waitforEPlusSignal`, hence indefinitely — for a non-NONE engine signal
before returning; afterwards the node state is ERROR and the node-to-engine
mailbox holds QUIT. -/
theorem error_callbacks_quit_escalation (st : SyncState)
    (arrival : EPlusSignalToOBN) :
    ((onRawMessageError st arrival).2 =
        [.setNodeState NodeLifecycleState.NODE_ERROR, .resetEPlusSignal,
         .signalEPlus EPSIG_QUIT, .waitforEPlusSignal] ∧
      (onRawMessageError st arrival).1.nodeState =
        NodeLifecycleState.NODE_ERROR ∧
      (onRawMessageError st arrival).1.obnToEplus = EPSIG_QUIT) ∧
    ((onReadValueError st arrival).2 =
        [.setNodeState NodeLifecycleState.NODE_ERROR, .resetEPlusSignal,
         .signalEPlus EPSIG_QUIT, .waitforEPlusSignal] ∧
      (onReadValueError st arrival).1.nodeState =
        NodeLifecycleState.NODE_ERROR ∧
      (onReadValueError st arrival).1.obnToEplus = EPSIG_QUIT) ∧
    ((onSendMessageError st arrival).2 =
        [.setNodeState NodeLifecycleState.NODE_ERROR, .resetEPlusSignal,
         .signalEPlus EPSIG_QUIT, .waitforEPlusSignal] ∧
      (onSendMessageError st arrival).1.nodeState =
        NodeLifecycleState.NODE_ERROR ∧
      (onSendMessageError st arrival).1.obnToEplus = EPSIG_QUIT) ∧
    ((onOBNError st arrival).2 =
        [.setNodeState NodeLifecycleState.NODE_ERROR, .resetEPlusSignal,
         .signalEPlus EPSIG_QUIT, .waitforEPlusSignal] ∧
      (onOBNError st arrival).1.nodeState =
        NodeLifecycleState.NODE_ERROR ∧
      (onOBNError st arrival).1.obnToEplus = EPSIG_QUIT) := by
  simp [onRawMessageError, onReadValueError, onSendMessageError, onOBNError,
    askEnergyPlusToQuit, resetEPlusSignal, signalEPlus, waitforEPlusSignal]

/-- C6: in each of the callbacks onUpdateY, onUpdateX, and onInitialization,
the engine-to-node mailbox ends at NONE (is reset) iff the observed signal
was DONE; for any other observed signal the mailbox is left holding exactly
the observed signal (untouched by the callback).  The hypothesis states that
the engine posts a non-NONE value, which is what the condition wait's
predicate guarantees for the observed value. -/
theorem update_callbacks_reset_iff_done (st : SyncState)
    (arrival : EPlusSignalToOBN) (h : arrival ≠ OBNSIG_NONE) :
    (((onUpdateY st arrival).1.eplusToObn = OBNSIG_NONE ↔
        observedEPlusSignal st arrival = OBNSIG_DONE) ∧
      (observedEPlusSignal st arrival ≠ OBNSIG_DONE →
        (onUpdateY st arrival).1.eplusToObn =
          observedEPlusSignal st arrival)) ∧
    (((onUpdateX st arrival).1.eplusToObn = OBNSIG_NONE ↔
        observedEPlusSignal st arrival = OBNSIG_DONE) ∧
      (observedEPlusSignal st arrival ≠ OBNSIG_DONE →
        (onUpdateX st arrival).1.eplusToObn =
          observedEPlusSignal st arrival)) ∧
    (((onInitializationCb st arrival).1.eplusToObn = OBNSIG_NONE ↔
        observedEPlusSignal st arrival = OBNSIG_DONE) ∧
      (observedEPlusSignal st arrival ≠ OBNSIG_DONE →
        (onInitializationCb st arrival).1.eplusToObn =
          observedEPlusSignal st arrival)) := by
  rcases st with ⟨e, o, ns⟩
  cases e <;> cases arrival <;>
    simp_all [onUpdateY, onUpdateX, onInitializationCb, observedEPlusSignal,
      signalEPlus, resetEPlusSignal, waitforEPlusSignal]

/-- C6 witness: the theorem applied at the empty-mailbox state with the
engine posting DONE during the wait. -/
theorem update_callbacks_reset_iff_done_witness :
    (OBNSIG_DONE ≠ OBNSIG_NONE) ∧
    ((onUpdateY ⟨OBNSIG_NONE, EPSIG_NONE, NodeLifecycleState.NODE_RUNNING⟩
        OBNSIG_DONE).1.eplusToObn = OBNSIG_NONE ↔
      observedEPlusSignal
        ⟨OBNSIG_NONE, EPSIG_NONE, NodeLifecycleState.NODE_RUNNING⟩
        OBNSIG_DONE = OBNSIG_DONE) :=
  ⟨by decide,
    ((update_callbacks_reset_iff_done
      ⟨OBNSIG_NONE, EPSIG_NONE, NodeLifecycleState.NODE_RUNNING⟩
      OBNSIG_DONE (by decide)).1).1⟩

/-- C8: starting with no node, the configuration whose lines are "mqtt",
"node1 myworkspace", "timeout 5" makes `initOBNNode` accept the transport,
create the node with name "node1" and workspace "myworkspace" (with no server
address override), and set the process-wide default timeout to 5 seconds —
the return value being that of the external thread start; and for every
configuration whose first-line transport selector (trimmed, lower-cased) is
not "mqtt", `initOBNNode` returns false and no node is created. -/
theorem initOBNNode_spec (startOK : Bool) (opts0 : OBNOptions)
    (l1 : List Char) (rest : List (List Char))
    (h : obnToLower (obnTrim (splitFirstWord l1).1) ≠ ("mqtt").toList) :
    initOBNNode none ⟨false, -1⟩
        [("mqtt").toList, ("node1 myworkspace").toList,
         ("timeout 5").toList] startOK =
      ⟨startOK, some ⟨("node1").toList, ("myworkspace").toList, none⟩,
        ⟨false, 5⟩⟩ ∧
    (initOBNNode none opts0 (l1 :: rest) startOK).retVal = false ∧
    (initOBNNode none opts0 (l1 :: rest) startOK).node = none := by
  refine ⟨by rfl, ?_⟩
  cases rest with
  | nil => simp [initOBNNode]
  | cons l2 r2 =>
    rw [initOBNNode]
    simp only []
    rw [if_neg h]
    exact ⟨rfl, rfl⟩

/-- C8 witness: the theorem applied with the non-mqtt transport line "xyz". -/
theorem initOBNNode_spec_witness :
    obnToLower (obnTrim (splitFirstWord ("xyz").toList).1) ≠
      ("mqtt").toList ∧
    (initOBNNode none ⟨false, -1⟩
        [("mqtt").toList, ("node1 myworkspace").toList,
         ("timeout 5").toList] true =
      ⟨true, some ⟨("node1").toList, ("myworkspace").toList, none⟩,
        ⟨false, 5⟩⟩ ∧
    (initOBNNode none ⟨false, -1⟩ [("xyz").toList] true).retVal = false ∧
    (initOBNNode none ⟨false, -1⟩ [("xyz").toList] true).node = none) :=
  ⟨by decide,
    initOBNNode_spec true ⟨false, -1⟩ ("xyz").toList [] (by decide)⟩

end OBNEPlus
